import Mathlib

/-!
Verification development for the DRISHYA connection resilience and fallback
controller.  The definitions below are a shallow embedding of the class
`EnhancedHardwareIntegration` (hardware connection state machine, retry loop
with exponential backoff, heartbeat health check, fallback activation, error
ring buffer, obstacle classifier) and of the callback notification layer
shared with `HardwareIntegrationService`.

Modelling conventions:
* JavaScript timers are modelled by explicit fields.  `setInterval` returns a
  handle stored in a single property; starting a second interval overwrites
  the handle while the first interval keeps running, so the model keeps a
  boolean for the tracked handle plus a counter of leaked (untracked but
  still live) intervals.
* `Date.now()` values are passed in as explicit `Nat` arguments.
* The transport (`establishConnection`, which draws a random number) and the
  scan race are abstracted by explicit outcome parameters, one per attempt.
* Distances are rationals; the relevant source comparisons use the exact
  thresholds 0.5, 1.0 and 2.0.
* Listener callbacks registered on an event channel may raise; they are
  modelled as `Except`-valued functions, and `notifyListeners` carries the
  try/catch of the source.
-/

set_option maxHeartbeats 1000000

namespace Drishya

/-- Connection states (`CONNECTION_STATE` in the source). -/
inductive ConnState
| disconnected
| connecting
| connected
| reconnecting
| failed
| fallback
deriving DecidableEq, Repr

/-- Error kinds (`ERROR_TYPES` in the source). -/
inductive ErrorType
| bluetoothUnavailable
| deviceNotFound
| connectionFailed
| connectionLost
| timeout
| permissionDenied
deriving DecidableEq, Repr

/-- A paired device handle: identifier plus display name. -/
structure Device where
  id : String
  name : String
deriving DecidableEq, Repr

/-- One record of the error log, as built by `handleError`. -/
structure ErrorRecord where
  type : ErrorType
  message : String
  timestamp : Nat
  state : ConnState
deriving DecidableEq, Repr

/-- Severity levels returned by `analyzeDistanceData`. -/
inductive Severity
| safe
| warning
| danger
| critical
deriving DecidableEq, Repr

/-- The three ranging directions of a distance sample. -/
inductive Direction
| front
| left
| right
deriving DecidableEq, Repr

/-- Source tag of a distance sample. -/
inductive SampleSource
| hardware
| phoneLidar
| cameraDepth
deriving DecidableEq, Repr

/-- A distance sample with all three components present. -/
structure DistSample where
  front : ℚ
  left : ℚ
  right : ℚ
  timestamp : Nat
  source : SampleSource
deriving DecidableEq, Repr

/-- Payload of an obstacle notification built by `updateDistanceData`. -/
structure Obstacle where
  level : Severity
  distance : ℚ
  direction : Direction
  source : SampleSource
deriving DecidableEq, Repr

/-- Events emitted through `notifyListeners` during controller operations. -/
inductive Event
| stateChange (s : ConnState)
| connected (d : Device)
| connectionLost
| disconnected
| fallbackActivated (reason : String)
| error (e : ErrorRecord)
deriving DecidableEq, Repr

/-- Source constant `MAX_RETRY_ATTEMPTS`. -/
def MAX_RETRY_ATTEMPTS : Nat := 3

/-- Source constant `RETRY_DELAY_BASE` (milliseconds). -/
def RETRY_DELAY_BASE : Nat := 2000

/-- Source constant `CONNECTION_TIMEOUT` (milliseconds). -/
def CONNECTION_TIMEOUT : Nat := 15000

/-- Source constant `HEALTH_CHECK_INTERVAL` (milliseconds). -/
def HEALTH_CHECK_INTERVAL : Nat := 5000

/-- Source constant `RECONNECT_DELAY` (milliseconds). -/
def RECONNECT_DELAY : Nat := 3000

/-- The mutable fields of `EnhancedHardwareIntegration`.  Timer properties
hold a boolean (handle set or not); `leakedHealthChecks` and
`leakedMonitors` count intervals whose handle was overwritten by a second
start and which therefore keep running untracked. -/
structure HWState where
  connectionState : ConnState
  device : Option Device
  retryCount : Nat
  healthCheckTimer : Bool
  leakedHealthChecks : Nat
  reconnectTimer : Bool
  monitoringInterval : Bool
  leakedMonitors : Nat
  lastDataTimestamp : Option Nat
  distanceData : Option DistSample
  errorLog : List ErrorRecord
  fallbackMode : Bool
  phoneHasLidar : Bool
deriving DecidableEq, Repr

/-- The constructor state of `EnhancedHardwareIntegration`. -/
def initState : HWState :=
  { connectionState := ConnState.disconnected
    device := none
    retryCount := 0
    healthCheckTimer := false
    leakedHealthChecks := 0
    reconnectTimer := false
    monitoringInterval := false
    leakedMonitors := 0
    lastDataTimestamp := none
    distanceData := none
    errorLog := []
    fallbackMode := false
    phoneHasLidar := false }

/-- Number of sampling intervals currently running: the tracked one (if the
handle is set) plus any leaked ones. -/
def liveMonitors (st : HWState) : Nat :=
  st.leakedMonitors + (if st.monitoringInterval then 1 else 0)

/-- Source `startHealthCheck`: `this.healthCheckTimer = setInterval(...)`.
If a health-check interval is already tracked, its handle is overwritten and
it leaks. -/
def startHealthCheck (st : HWState) : HWState :=
  { st with
    leakedHealthChecks := st.leakedHealthChecks + (if st.healthCheckTimer then 1 else 0)
    healthCheckTimer := true }

/-- Source `stopHealthCheck`: clears the tracked health-check interval, if
any. -/
def stopHealthCheck (st : HWState) : HWState :=
  { st with healthCheckTimer := false }

/-- Source `startDistanceMonitoring`: `this.monitoringInterval =
setInterval(...)`.  If a sampling interval is already tracked, its handle is
overwritten and it leaks. -/
def startDistanceMonitoring (st : HWState) : HWState :=
  { st with
    leakedMonitors := st.leakedMonitors + (if st.monitoringInterval then 1 else 0)
    monitoringInterval := true }

/-- Source `stopDistanceMonitoring`: clears the tracked sampling interval, if
any. -/
def stopDistanceMonitoring (st : HWState) : HWState :=
  { st with monitoringInterval := false }

/-- Log update of `handleError`: push, then `shift()` once when the length
exceeds 50. -/
def pushBounded (log : List ErrorRecord) (e : ErrorRecord) : List ErrorRecord :=
  let l := log ++ [e]
  if 50 < l.length then l.drop 1 else l

/-- Source `handleError`: builds a record carrying the current connection
state, appends it to the bounded log and notifies the error channel. -/
def handleError (t : ErrorType) (msg : String) (now : Nat) (st : HWState) :
    HWState × List Event :=
  let e : ErrorRecord :=
    { type := t, message := msg, timestamp := now, state := st.connectionState }
  ({ st with errorLog := pushBounded st.errorLog e }, [Event.error e])

/-- Source `startFallbackSensors`: logs the sensing branch and starts the
sampling interval. -/
def startFallbackSensors (st : HWState) : HWState :=
  startDistanceMonitoring st

/-- Source `activateFallbackMode`: sets the fallback flag, moves to the
`FALLBACK` state, notifies `stateChange` and `fallbackActivated`, and starts
the fallback sensors.  The source performs no already-active check. -/
def activateFallbackMode (reason : String) (st : HWState) : HWState × List Event :=
  let st1 := { st with fallbackMode := true, connectionState := ConnState.fallback }
  (startFallbackSensors st1,
   [Event.stateChange ConnState.fallback, Event.fallbackActivated reason])

/-- Result of `disconnect`. -/
structure DisconnectResult where
  state : HWState
  events : List Event
  success : Bool
deriving Repr

/-- Source `disconnect`: stops the tracked health-check and sampling
intervals, clears a pending reconnect timeout, clears the device, resets the
retry counter and moves to `DISCONNECTED`.  The body cannot raise, so the
result is always `success`. -/
def disconnect (st : HWState) : DisconnectResult :=
  let st1 := stopHealthCheck st
  let st2 := stopDistanceMonitoring st1
  let st3 := { st2 with reconnectTimer := false }
  let st4 := { st3 with
    device := none
    connectionState := ConnState.disconnected
    retryCount := 0 }
  { state := st4
    events := [Event.stateChange ConnState.disconnected, Event.disconnected]
    success := true }

/-- Result of `scanForDevice`. -/
structure ScanResult where
  state : HWState
  events : List Event
  found : Option Device
deriving Repr

/-- Source `scanForDevice`: moves to `CONNECTING` and notifies, then races
the mock scan against the timeout.  `scanWins` abstracts the race outcome.
On a win the found candidate is returned with no further state write; on a
loss the only possible rejection is the timeout, so `handleError` records
`DEVICE_NOT_FOUND` with message `Scan timeout`, the state returns to
`DISCONNECTED` and the call throws. -/
def scanForDevice (scanWins : Bool) (now : Nat) (st : HWState) : ScanResult :=
  let st1 := { st with connectionState := ConnState.connecting }
  if scanWins then
    { state := st1
      events := [Event.stateChange ConnState.connecting]
      found := some { id := "DRISHTIKA_001", name := "Drishtika Wearable" } }
  else
    let he := handleError ErrorType.deviceNotFound "Scan timeout" now st1
    let st2 := { he.1 with connectionState := ConnState.disconnected }
    { state := st2
      events := [Event.stateChange ConnState.connecting] ++ he.2 ++
        [Event.stateChange ConnState.disconnected]
      found := none }

/-- Result of `connectToDevice`: final state, events, the backoff delays
slept between attempts, the number of attempts made, and `some (device,
attempt)` on success or `none` when the call throws. -/
structure ConnectResult where
  state : HWState
  events : List Event
  delays : List Nat
  attempts : Nat
  result : Option (Device × Nat)
deriving Repr

/-- The `for` loop of `connectToDevice`.  `outcome k` abstracts whether the
raced establish operation of attempt `k` succeeds, `failMsg k` the message of
the exception it otherwise rejects with.  The fuel starts at
`MAX_RETRY_ATTEMPTS` and the terminal branch fires at the last attempt, so
fuel never runs out from the initial call. -/
def connectLoop (deviceId : String) (autoRetry : Bool) (outcome : Nat → Bool)
    (failMsg : Nat → String) (now : Nat) :
    Nat → Nat → HWState → ConnectResult
| 0, _, st => { state := st, events := [], delays := [], attempts := 0, result := none }
| Nat.succ fuel, attempt, st =>
  if outcome attempt then
    let d : Device := { id := deviceId, name := "Drishtika" }
    let st1 := { st with
      device := some d
      connectionState := ConnState.connected
      retryCount := 0
      fallbackMode := false }
    let st2 := startDistanceMonitoring (startHealthCheck st1)
    { state := st2
      events := [Event.stateChange ConnState.connected, Event.connected d]
      delays := []
      attempts := 1
      result := some (d, attempt) }
  else if attempt = MAX_RETRY_ATTEMPTS ∨ autoRetry = false then
    let he := handleError ErrorType.connectionFailed (failMsg attempt) now st
    let st2 := { he.1 with connectionState := ConnState.failed }
    let fb := activateFallbackMode "Connection failed after max retries" st2
    { state := fb.1
      events := he.2 ++ [Event.stateChange ConnState.failed] ++ fb.2
      delays := []
      attempts := 1
      result := none }
  else
    let r := connectLoop deviceId autoRetry outcome failMsg now fuel (attempt + 1) st
    { r with
      delays := RETRY_DELAY_BASE * 2 ^ (attempt - 1) :: r.delays
      attempts := r.attempts + 1 }

/-- Source `connectToDevice`: moves to `CONNECTING`, notifies, then runs the
attempt loop. -/
def connectToDevice (deviceId : String) (autoRetry : Bool) (outcome : Nat → Bool)
    (failMsg : Nat → String) (now : Nat) (st : HWState) : ConnectResult :=
  let st1 := { st with connectionState := ConnState.connecting }
  let r := connectLoop deviceId autoRetry outcome failMsg now MAX_RETRY_ATTEMPTS 1 st1
  { r with events := Event.stateChange ConnState.connecting :: r.events }

/-- Source `handleConnectionLoss`: moves to `RECONNECTING`, notifies
`stateChange` and `connectionLost`, stops both tracked intervals and
schedules the reconnect timeout. -/
def handleConnectionLoss (st : HWState) : HWState × List Event :=
  let st1 := { st with connectionState := ConnState.reconnecting }
  let st2 := stopDistanceMonitoring (stopHealthCheck st1)
  let st3 := { st2 with reconnectTimer := true }
  (st3, [Event.stateChange ConnState.reconnecting, Event.connectionLost])

/-- Result of one firing of the health check: new state, events, and the
delay of the reconnect attempt it scheduled, if any. -/
structure HealthCheckResult where
  state : HWState
  events : List Event
  reconnectDelay : Option Nat
deriving Repr

/-- Source `checkConnectionHealth`: returns early unless `CONNECTED`;
otherwise compares `now` with `this.lastDataTimestamp || now` and hands over
to `handleConnectionLoss` when the silence exceeds
`HEALTH_CHECK_INTERVAL * 2`.  The or-else falls back to `now` both when no
sample was received yet (null) and when the stored timestamp is the falsy
number 0, so a zero timestamp yields zero silence. -/
def checkConnectionHealth (now : Nat) (st : HWState) : HealthCheckResult :=
  if st.connectionState = ConnState.connected then
    let lastTs : Int :=
      match st.lastDataTimestamp with
      | none => (now : Int)
      | some t => if t = 0 then (now : Int) else (t : Int)
    if (now : Int) - lastTs > (HEALTH_CHECK_INTERVAL : Int) * 2 then
      let hl := handleConnectionLoss st
      { state := hl.1, events := hl.2, reconnectDelay := some RECONNECT_DELAY }
    else
      { state := st, events := [], reconnectDelay := none }
  else
    { state := st, events := [], reconnectDelay := none }

/-- Firing of the reconnect timeout scheduled by `handleConnectionLoss`: when
a device is known, retries `connectToDevice` with `autoRetry`; when that call
throws, the catch activates fallback mode once more. -/
def reconnectTimerFire (outcome : Nat → Bool) (failMsg : Nat → String) (now : Nat)
    (st : HWState) : HWState × List Event :=
  let st0 := { st with reconnectTimer := false }
  match st0.device with
  | none => (st0, [])
  | some d =>
    let r := connectToDevice d.id true outcome failMsg now st0
    match r.result with
    | some _ => (r.state, r.events)
    | none =>
      let fb := activateFallbackMode "Reconnection failed" r.state
      (fb.1, r.events ++ fb.2)

/-- Source `initialize`: records the probed LiDAR capability, then activates
fallback immediately on the web platform (after recording a
`BLUETOOTH_UNAVAILABLE` error) or when Bluetooth is unavailable.  Returns the
reported `fallbackMode` flag. -/
def initHW (webPlatform bluetoothAvailable lidar : Bool) (now : Nat) (st : HWState) :
    HWState × List Event × Bool :=
  let st0 := { st with phoneHasLidar := lidar }
  if webPlatform then
    let he := handleError ErrorType.bluetoothUnavailable "Web platform detected" now st0
    let fb := activateFallbackMode "Web platform does not support Bluetooth" he.1
    (fb.1, he.2 ++ fb.2, true)
  else if bluetoothAvailable = false then
    let fb := activateFallbackMode "Bluetooth not available" st0
    (fb.1, fb.2, true)
  else
    (st0, [], false)

/-- Source `analyzeDistanceData`: severity from the minimum of the three
components against the thresholds 0.5, 1.0, 2.0, tried in ascending order. -/
def analyzeDistanceData (front left right : ℚ) : Severity :=
  let minDistance := min front (min left right)
  if minDistance < 1/2 then Severity.critical
  else if minDistance < 1 then Severity.danger
  else if minDistance < 2 then Severity.warning
  else Severity.safe

/-- Distance of a sample in a given direction. -/
def directionValue (front left right : ℚ) : Direction → ℚ
| Direction.front => front
| Direction.left => left
| Direction.right => right

/-- Source `getClosestDirection`: `Object.keys(distances).reduce((a, b) =>
distances[a] < distances[b] ? a : b)` over the keys `front`, `left`,
`right` in insertion order; `reduce` without an initial value folds the tail
with the head as the accumulator. -/
def getClosestDirection (front left right : ℚ) : Direction :=
  [Direction.left, Direction.right].foldl
    (fun a b =>
      if directionValue front left right a < directionValue front left right b then a else b)
    Direction.front

/-- Modelled from the spec for the refinement check of C4: severity as a
function of the minimum component alone. -/
def specSeverityOfMin (m : ℚ) : Severity :=
  if m < 1/2 then Severity.critical
  else if m < 1 then Severity.danger
  else if m < 2 then Severity.warning
  else Severity.safe

/-- Modelled from the spec for the refinement check of C9: the component
achieving the minimum, ties broken by the precedence front, then left, then
right. -/
def specDirectionFrontFirst (front left right : ℚ) : Direction :=
  if front ≤ left ∧ front ≤ right then Direction.front
  else if left ≤ right then Direction.left
  else Direction.right

/-- Closed form of the tie-break the source actually implements: the later
component in iteration order wins a tie at the minimum. -/
def lastMinDirection (front left right : ℚ) : Direction :=
  if right ≤ min front left then Direction.right
  else if left ≤ front then Direction.left
  else Direction.front

/-- Source `notifyListeners`: looks up the single registered callback and
invokes it inside try/catch; a raised exception is caught and surfaced only
as the returned log message. -/
def notifyListeners {α : Type} (cb : Option (α → Except String Unit)) (d : α) :
    Option String :=
  match cb with
  | none => none
  | some f =>
    match f d with
    | Except.ok _ => none
    | Except.error msg => some msg

/-- Source `updateDistanceData`: stores the sample, classifies it, notifies
the distance channel, and notifies the obstacle channel when the level is not
`SAFE`.  Returns the new state together with the caught-exception logs of the
notifications performed. -/
def updateDistanceData (distCb : Option (DistSample → Except String Unit))
    (obstCb : Option (Obstacle → Except String Unit))
    (st : HWState) (data : DistSample) : HWState × List (Option String) :=
  let st1 := { st with distanceData := some data }
  let lvl := analyzeDistanceData data.front data.left data.right
  let log1 := notifyListeners distCb data
  if lvl = Severity.safe then
    (st1, [log1])
  else
    let ob : Obstacle :=
      { level := lvl
        distance := min data.front (min data.left data.right)
        direction := getClosestDirection data.front data.left data.right
        source := data.source }
    let log2 := notifyListeners obstCb ob
    (st1, [log1, log2])

/-- One externally triggerable controller operation, with every abstracted
environment input (platform, race and transport outcomes, clock readings)
carried as data.  Timer-driven callbacks fire only when their timer is
pending. -/
inductive Op
| initOp (web bt lidar : Bool) (now : Nat)
| scanOp (scanWins : Bool) (now : Nat)
| connectOp (deviceId : String) (autoRetry : Bool) (outcome : Nat → Bool)
    (failMsg : Nat → String) (now : Nat)
| healthCheckOp (now : Nat)
| reconnectFireOp (outcome : Nat → Bool) (failMsg : Nat → String) (now : Nat)
| fallbackOp (reason : String)
| disconnectOp

/-- State effect of one operation. -/
def runOp (op : Op) (st : HWState) : HWState :=
  match op with
  | Op.initOp web bt lidar now => (initHW web bt lidar now st).1
  | Op.scanOp w now => (scanForDevice w now st).state
  | Op.connectOp deviceId ar oc fm now => (connectToDevice deviceId ar oc fm now st).state
  | Op.healthCheckOp now =>
      if st.healthCheckTimer then (checkConnectionHealth now st).state else st
  | Op.reconnectFireOp oc fm now =>
      if st.reconnectTimer then (reconnectTimerFire oc fm now st).1 else st
  | Op.fallbackOp reason => (activateFallbackMode reason st).1
  | Op.disconnectOp => (disconnect st).state

/-- State after a sequence of operations. -/
def runOps (ops : List Op) (st : HWState) : HWState :=
  ops.foldl (fun s op => runOp op s) st

/-- A transport that succeeds on every attempt. -/
def alwaysOk : Nat → Bool := fun _ => true

/-- A transport that fails on every attempt. -/
def alwaysFail : Nat → Bool := fun _ => false

/-- A fixed failure message assignment. -/
def msgFn : Nat → String := fun _ => "simulated failure"

/-- Operation sequence for the C2 counterexample: a successful connect
followed by an explicit fallback activation. -/
def c2Ops : List Op :=
  [Op.connectOp "X" true alwaysOk msgFn 0, Op.fallbackOp "forced"]

/-- Operation sequence for the C2 witness: one successful connect. -/
def c2WitnessOps : List Op := [Op.connectOp "X" true alwaysOk msgFn 0]

/-- Controller state already in fallback mode, for the C6 counterexample. -/
def c6State : HWState := (activateFallbackMode "first activation" initState).1

/-- Operation sequence for the C7 counterexample: fallback, then a successful
connect (which overwrites the tracked sampling interval and leaks the running
fallback interval), then disconnect. -/
def c7Ops : List Op :=
  [Op.fallbackOp "no hardware", Op.connectOp "X" true alwaysOk msgFn 0, Op.disconnectOp]

/-- Concrete connected state with a stale sample (a truthy timestamp), for
the C3 witness. -/
def c3State : HWState :=
  { initState with
    connectionState := ConnState.connected
    device := some { id := "X", name := "Drishtika" }
    healthCheckTimer := true
    monitoringInterval := true
    lastDataTimestamp := some 1000 }

/-- Fifty-one distinct error records, for the C5 witness. -/
def c5Errors : List ErrorRecord :=
  (List.range 51).map fun i =>
    { type := ErrorType.timeout
      message := "m"
      timestamp := i
      state := ConnState.disconnected }

/-- Invariant of the amended C2: the device handle is non-null whenever the
state is `Connected` or `Reconnecting`. -/
def connInv (st : HWState) : Prop :=
  (st.connectionState = ConnState.connected ∨
   st.connectionState = ConnState.reconnecting) → st.device ≠ none

@[simp] lemma directionValue_front (f l r : ℚ) :
    directionValue f l r Direction.front = f := rfl

@[simp] lemma directionValue_left (f l r : ℚ) :
    directionValue f l r Direction.left = l := rfl

@[simp] lemma directionValue_right (f l r : ℚ) :
    directionValue f l r Direction.right = r := rfl

lemma getClosestDirection_eq_lastMin (f l r : ℚ) :
    getClosestDirection f l r = lastMinDirection f l r := by
  unfold getClosestDirection lastMinDirection
  simp only [List.foldl_cons, List.foldl_nil, directionValue_front, directionValue_left,
    directionValue_right]
  rcases lt_or_le f l with h1 | h1
  · rw [if_pos h1]
    simp only [directionValue_front, directionValue_right]
    rcases lt_or_le f r with h2 | h2
    · rw [if_pos h2, min_eq_left h1.le, if_neg (not_le.2 h2), if_neg (not_le.2 h1)]
    · rw [if_neg (not_lt.2 h2), min_eq_left h1.le, if_pos h2]
  · rw [if_neg (not_lt.2 h1)]
    simp only [directionValue_left, directionValue_right]
    rcases lt_or_le l r with h2 | h2
    · rw [if_pos h2, min_eq_right h1, if_neg (not_le.2 h2), if_pos h1]
    · rw [if_neg (not_lt.2 h2), min_eq_right h1, if_pos h2]

lemma directionValue_getClosest (f l r : ℚ) :
    directionValue f l r (getClosestDirection f l r) = min f (min l r) := by
  unfold getClosestDirection
  simp only [List.foldl_cons, List.foldl_nil, directionValue_front, directionValue_left,
    directionValue_right]
  rcases lt_or_le f l with h1 | h1
  · rw [if_pos h1]
    simp only [directionValue_front, directionValue_right]
    rcases lt_or_le f r with h2 | h2
    · rw [if_pos h2]
      simp only [directionValue_front]
      rw [min_eq_left (le_min h1.le h2.le)]
    · rw [if_neg (not_lt.2 h2)]
      simp only [directionValue_right]
      rw [min_eq_right (h2.trans h1.le), min_eq_right h2]
  · rw [if_neg (not_lt.2 h1)]
    simp only [directionValue_left, directionValue_right]
    rcases lt_or_le l r with h2 | h2
    · rw [if_pos h2]
      simp only [directionValue_left]
      rw [min_eq_left h2.le, min_eq_right h1]
    · rw [if_neg (not_lt.2 h2)]
      simp only [directionValue_right]
      rw [min_eq_right h2, min_eq_right (h2.trans h1)]

/-- Claim C9 (amended): the classified direction always achieves the minimum
distance of the sample, and the tie-break the code implements is the fixed
precedence right over left over front (the later component in iteration
order wins a tie), not front over left over right. -/
theorem direction_is_argmin_later_tie (f l r : ℚ) :
    directionValue f l r (getClosestDirection f l r) = min f (min l r) ∧
    getClosestDirection f l r = lastMinDirection f l r :=
  ⟨directionValue_getClosest f l r, getClosestDirection_eq_lastMin f l r⟩

/-- Claim C9 counterexample: on the tied sample (front, left, right) =
(1, 1, 2) the code returns left while the claimed front-first tie-break
returns front. -/
theorem direction_tiebreak_counterexample :
    getClosestDirection 1 1 2 = Direction.left ∧
    specDirectionFrontFirst 1 1 2 = Direction.front ∧
    Direction.left ≠ Direction.front := by decide

/-- Claim C4: the classified severity is a function of the minimum component
alone, equal to the spec threshold function with upper-exclusive bounds in
ascending order, and the sample (0.3, 2, 2) classifies as Critical. -/
theorem classify_level_of_min (f l r f2 l2 r2 : ℚ) :
    (min f (min l r) = min f2 (min l2 r2) →
      analyzeDistanceData f l r = analyzeDistanceData f2 l2 r2) ∧
    analyzeDistanceData f l r = specSeverityOfMin (min f (min l r)) ∧
    analyzeDistanceData (3/10) 2 2 = Severity.critical := by
  refine ⟨?_, rfl, ?_⟩
  · intro h
    rw [show analyzeDistanceData f l r = specSeverityOfMin (min f (min l r)) from rfl,
      show analyzeDistanceData f2 l2 r2 = specSeverityOfMin (min f2 (min l2 r2)) from rfl, h]
  · unfold analyzeDistanceData
    norm_num

/-- Claim C4 witness: two different samples with the same minimum classify
identically. -/
theorem classify_level_of_min_witness :
    min (3/10 : ℚ) (min 2 2) = min 5 (min (3/10) 7) ∧
    analyzeDistanceData (3/10) 2 2 = analyzeDistanceData 5 (3/10) 7 :=
  ⟨by norm_num, (classify_level_of_min (3/10) 2 2 5 (3/10) 7).1 (by norm_num)⟩

lemma pushBounded_length_le {log : List ErrorRecord} {e : ErrorRecord}
    (h : log.length ≤ 50) : (pushBounded log e).length ≤ 50 := by
  unfold pushBounded
  by_cases hc : 50 < (log ++ [e]).length
  · rw [if_pos hc, List.length_drop]
    simp only [List.length_append, List.length_cons, List.length_nil]
    omega
  · rw [if_neg hc]
    omega

lemma foldl_pushBounded_length (es : List ErrorRecord) :
    ∀ acc : List ErrorRecord, acc.length ≤ 50 →
      (es.foldl pushBounded acc).length ≤ 50 := by
  induction es with
  | nil => intro acc h; simpa using h
  | cons e es ih =>
    intro acc h
    rw [List.foldl_cons]
    exact ih _ (pushBounded_length_le h)

lemma foldl_pushBounded_small (es : List ErrorRecord) :
    ∀ acc : List ErrorRecord, acc.length + es.length ≤ 50 →
      es.foldl pushBounded acc = acc ++ es := by
  induction es with
  | nil => intro acc _; simp
  | cons e es ih =>
    intro acc h
    simp only [List.length_cons] at h
    have hlen : ¬ 50 < (acc ++ [e]).length := by
      simp only [List.length_append, List.length_cons, List.length_nil, not_lt]
      omega
    have hp : pushBounded acc e = acc ++ [e] := by
      unfold pushBounded
      rw [if_neg hlen]
    have hlen2 : (acc ++ [e]).length + es.length ≤ 50 := by
      simp only [List.length_append, List.length_cons, List.length_nil]
      omega
    rw [List.foldl_cons, hp, ih (acc ++ [e]) hlen2, List.append_assoc,
      List.singleton_append]

/-- Claim C5: starting from the empty log, any insertion sequence leaves at
most 50 records; 51 insertions leave exactly the last 50 in insertion order;
and `handleError` updates the log exactly by this bounded push. -/
theorem errorLog_bounded_fifo (es : List ErrorRecord) :
    (es.foldl pushBounded []).length ≤ 50 ∧
    (es.length = 51 → es.foldl pushBounded [] = es.drop 1) ∧
    (∀ t m n st, (handleError t m n st).1.errorLog =
      pushBounded st.errorLog
        { type := t, message := m, timestamp := n, state := st.connectionState }) := by
  refine ⟨foldl_pushBounded_length es [] (by simp), ?_, fun t m n st => rfl⟩
  intro h51
  rcases List.eq_nil_or_concat es with rfl | ⟨front, e, rfl⟩
  · simp at h51
  · simp only [List.concat_eq_append] at h51 ⊢
    have hf : front.length = 50 := by
      simp only [List.length_append, List.length_cons, List.length_nil] at h51
      omega
    have hsmall : (([] : List ErrorRecord)).length + front.length ≤ 50 := by
      simp [hf]
    rw [List.foldl_append, List.foldl_cons, List.foldl_nil,
      foldl_pushBounded_small front [] hsmall, List.nil_append]
    unfold pushBounded
    rw [if_pos (by simp [hf])]

/-- Claim C5 witness: 51 concrete insertions keep exactly the last 50. -/
theorem errorLog_bounded_fifo_witness :
    c5Errors.length = 51 ∧ c5Errors.foldl pushBounded [] = c5Errors.drop 1 :=
  ⟨by simp [c5Errors], (errorLog_bounded_fifo c5Errors).2.1 (by simp [c5Errors])⟩

/-- Claim C8 counterexample: a successful scan from `Disconnected` leaves the
state `Connecting`, so the state is not the same after the call as before. -/
theorem scan_success_changes_state_counterexample :
    initState.connectionState = ConnState.disconnected ∧
    (scanForDevice true 0 initState).state.connectionState = ConnState.connecting ∧
    ConnState.connecting ≠ ConnState.disconnected := by decide

/-- Claim C8 (amended): a successful scan returns the candidate handle but
leaves the state `Connecting` (set on entry and never restored); a timed-out
scan records a `DeviceNotFound` error and leaves the state `Disconnected`.
Neither path stores the candidate in the controller device field. -/
theorem scan_result_states (st : HWState) (now : Nat) :
    ((scanForDevice true now st).found =
        some { id := "DRISHTIKA_001", name := "Drishtika Wearable" } ∧
     (scanForDevice true now st).state.connectionState = ConnState.connecting ∧
     (scanForDevice true now st).state.device = st.device ∧
     (scanForDevice true now st).state.errorLog = st.errorLog ∧
     (scanForDevice true now st).events = [Event.stateChange ConnState.connecting]) ∧
    ((scanForDevice false now st).found = none ∧
     (scanForDevice false now st).state.connectionState = ConnState.disconnected ∧
     (scanForDevice false now st).state.device = st.device ∧
     (scanForDevice false now st).state.errorLog =
       pushBounded st.errorLog
         { type := ErrorType.deviceNotFound, message := "Scan timeout",
           timestamp := now, state := ConnState.connecting } ∧
     (scanForDevice false now st).events =
       [Event.stateChange ConnState.connecting,
        Event.error
          { type := ErrorType.deviceNotFound, message := "Scan timeout",
            timestamp := now, state := ConnState.connecting },
        Event.stateChange ConnState.disconnected]) :=
  ⟨⟨rfl, rfl, rfl, rfl, rfl⟩, ⟨rfl, rfl, rfl, rfl, rfl⟩⟩

/-- Claim C10: an exception raised by a subscriber callback is caught inside
`notifyListeners` and surfaced only as a log message, a normally returning
callback logs nothing, and the state result and notification count of
`updateDistanceData` are independent of the registered callbacks, throwing or
not. -/
theorem listener_exception_contained (α : Type) (msg : String) (d : α)
    (distCb distCb2 : Option (DistSample → Except String Unit))
    (obstCb obstCb2 : Option (Obstacle → Except String Unit))
    (st : HWState) (data : DistSample) :
    notifyListeners (some fun _ : α => Except.error msg) d = some msg ∧
    notifyListeners (some fun _ : α => Except.ok ()) d = none ∧
    (updateDistanceData distCb obstCb st data).1 =
      (updateDistanceData distCb2 obstCb2 st data).1 ∧
    (updateDistanceData distCb obstCb st data).2.length =
      (updateDistanceData distCb2 obstCb2 st data).2.length := by
  refine ⟨rfl, rfl, ?_, ?_⟩ <;>
  · by_cases h : analyzeDistanceData data.front data.left data.right = Severity.safe <;>
      simp [updateDistanceData, h]

/-- Claim C6 counterexample: activating fallback while already in fallback
mode re-fires the state-change and fallback-activation events and starts an
additional sampling interval (the count of live intervals grows by one). -/
theorem fallback_reactivation_counterexample :
    c6State.connectionState = ConnState.fallback ∧
    c6State.fallbackMode = true ∧
    (activateFallbackMode "second activation" c6State).2 =
      [Event.stateChange ConnState.fallback,
       Event.fallbackActivated "second activation"] ∧
    liveMonitors (activateFallbackMode "second activation" c6State).1 =
      liveMonitors c6State + 1 := by decide

/-- Claim C6 (amended): re-activating fallback while already in
`FallbackActive` leaves the connection state, fallback flag, device and error
log unchanged, but re-fires both the state-change and fallback-activation
events and starts an additional sampling interval, leaking the previously
tracked one. -/
theorem fallback_reactivation_not_noop (st : HWState) (reason : String)
    (h1 : st.connectionState = ConnState.fallback)
    (h2 : st.fallbackMode = true)
    (h3 : st.monitoringInterval = true) :
    (activateFallbackMode reason st).1.connectionState = st.connectionState ∧
    (activateFallbackMode reason st).1.fallbackMode = st.fallbackMode ∧
    (activateFallbackMode reason st).1.device = st.device ∧
    (activateFallbackMode reason st).1.errorLog = st.errorLog ∧
    (activateFallbackMode reason st).2 =
      [Event.stateChange ConnState.fallback, Event.fallbackActivated reason] ∧
    (activateFallbackMode reason st).1.leakedMonitors = st.leakedMonitors + 1 ∧
    (activateFallbackMode reason st).1.monitoringInterval = true := by
  simp [activateFallbackMode, startFallbackSensors, startDistanceMonitoring, h1, h2, h3]

/-- Claim C6 witness. -/
theorem fallback_reactivation_witness :
    (c6State.connectionState = ConnState.fallback ∧
     c6State.fallbackMode = true ∧
     c6State.monitoringInterval = true) ∧
    (activateFallbackMode "again" c6State).1.leakedMonitors = c6State.leakedMonitors + 1 :=
  ⟨⟨rfl, rfl, rfl⟩,
   (fallback_reactivation_not_noop c6State "again" rfl rfl rfl).2.2.2.2.2.1⟩

/-- Claim C7 counterexample: after fallback activation, a successful connect
and a disconnect, the state is `Disconnected` and every tracked timer handle
is cleared, yet one sampling interval (leaked when the connect overwrote the
handle of the fallback interval) is still live, so disconnect did not stop
all timers. -/
theorem disconnect_leaked_interval_counterexample :
    (runOps c7Ops initState).connectionState = ConnState.disconnected ∧
    (runOps c7Ops initState).healthCheckTimer = false ∧
    (runOps c7Ops initState).monitoringInterval = false ∧
    (runOps c7Ops initState).reconnectTimer = false ∧
    liveMonitors (runOps c7Ops initState) = 1 := by decide

/-- Claim C7 (amended): from any state, disconnect succeeds, stops the
tracked health-check and sampling intervals and the pending reconnect
timeout, clears the device handle, resets the retry counter, records no
error, leaves the state `Disconnected`, and is idempotent; sampling intervals
whose handle was previously overwritten are not stopped (their count is
unchanged). -/
theorem disconnect_succeeds_idempotent (st : HWState) :
    (disconnect st).success = true ∧
    (disconnect st).state.connectionState = ConnState.disconnected ∧
    (disconnect st).state.device = none ∧
    (disconnect st).state.retryCount = 0 ∧
    (disconnect st).state.healthCheckTimer = false ∧
    (disconnect st).state.monitoringInterval = false ∧
    (disconnect st).state.reconnectTimer = false ∧
    (disconnect st).state.errorLog = st.errorLog ∧
    (disconnect st).state.leakedMonitors = st.leakedMonitors ∧
    disconnect ((disconnect st).state) = disconnect st := by
  refine ⟨rfl, rfl, rfl, rfl, rfl, rfl, rfl, rfl, rfl, ?_⟩
  simp [disconnect, stopHealthCheck, stopDistanceMonitoring]

lemma connectToDevice_allFail (deviceId : String) (oc : Nat → Bool)
    (fm : Nat → String) (now : Nat) (st : HWState) (h : ∀ k, oc k = false) :
    (connectToDevice deviceId true oc fm now st).attempts = 3 ∧
    (connectToDevice deviceId true oc fm now st).delays = [2000, 4000] ∧
    (connectToDevice deviceId true oc fm now st).result = none ∧
    (connectToDevice deviceId true oc fm now st).events =
      [Event.stateChange ConnState.connecting,
       Event.error
         { type := ErrorType.connectionFailed, message := fm 3,
           timestamp := now, state := ConnState.connecting },
       Event.stateChange ConnState.failed,
       Event.stateChange ConnState.fallback,
       Event.fallbackActivated "Connection failed after max retries"] ∧
    (connectToDevice deviceId true oc fm now st).state.connectionState =
      ConnState.fallback ∧
    (connectToDevice deviceId true oc fm now st).state.fallbackMode = true ∧
    (connectToDevice deviceId true oc fm now st).state.errorLog =
      pushBounded st.errorLog
        { type := ErrorType.connectionFailed, message := fm 3,
          timestamp := now, state := ConnState.connecting } := by
  have e1 := h 1
  have e2 := h 2
  have e3 := h 3
  refine ⟨?_, ?_, ?_, ?_, ?_, ?_, ?_⟩ <;>
    simp [connectToDevice, connectLoop, MAX_RETRY_ATTEMPTS, e1, e2, e3, handleError,
      activateFallbackMode, startFallbackSensors, startDistanceMonitoring,
      RETRY_DELAY_BASE]

/-- Claim C1: with `autoRetry` and a transport failing every attempt, the
controller makes exactly `MAX_RETRY_ATTEMPTS = 3` attempts, sleeps the
strictly increasing backoff delays 2000ms and 4000ms between consecutive
attempts, throws, and along the way transitions Connecting to Failed, records
a `ConnectionFailed` error in the bounded log, and then activates fallback
mode, ending with the fallback flag set. -/
theorem connect_exhausts_retries_then_fallback (deviceId : String) (oc : Nat → Bool)
    (fm : Nat → String) (now : Nat) (st : HWState) (h : ∀ k, oc k = false) :
    (connectToDevice deviceId true oc fm now st).attempts = MAX_RETRY_ATTEMPTS ∧
    MAX_RETRY_ATTEMPTS = 3 ∧
    (connectToDevice deviceId true oc fm now st).delays =
      [RETRY_DELAY_BASE * 2 ^ 0, RETRY_DELAY_BASE * 2 ^ 1] ∧
    List.Chain' (· < ·) (connectToDevice deviceId true oc fm now st).delays ∧
    (connectToDevice deviceId true oc fm now st).result = none ∧
    (connectToDevice deviceId true oc fm now st).events =
      [Event.stateChange ConnState.connecting,
       Event.error
         { type := ErrorType.connectionFailed, message := fm 3,
           timestamp := now, state := ConnState.connecting },
       Event.stateChange ConnState.failed,
       Event.stateChange ConnState.fallback,
       Event.fallbackActivated "Connection failed after max retries"] ∧
    (connectToDevice deviceId true oc fm now st).state.connectionState =
      ConnState.fallback ∧
    (connectToDevice deviceId true oc fm now st).state.fallbackMode = true ∧
    (connectToDevice deviceId true oc fm now st).state.errorLog =
      pushBounded st.errorLog
        { type := ErrorType.connectionFailed, message := fm 3,
          timestamp := now, state := ConnState.connecting } := by
  obtain ⟨ha, hd, hr, he, hs, hf, hl⟩ := connectToDevice_allFail deviceId oc fm now st h
  refine ⟨by rw [ha]; rfl, rfl, by rw [hd]; norm_num [RETRY_DELAY_BASE],
    by rw [hd]; simp [List.chain'_cons], hr, he, hs, hf, hl⟩

/-- Claim C1 witness. -/
theorem connect_exhausts_retries_witness :
    (∀ k, alwaysFail k = false) ∧
    (connectToDevice "X" true alwaysFail msgFn 0 initState).attempts = MAX_RETRY_ATTEMPTS ∧
    (connectToDevice "X" true alwaysFail msgFn 0 initState).state.connectionState =
      ConnState.fallback :=
  ⟨fun _ => rfl,
   (connect_exhausts_retries_then_fallback "X" alwaysFail msgFn 0 initState
     fun _ => rfl).1,
   (connect_exhausts_retries_then_fallback "X" alwaysFail msgFn 0 initState
     fun _ => rfl).2.2.2.2.2.2.1⟩

lemma connInv_of_fallback (st : HWState)
    (h : st.connectionState = ConnState.fallback) : connInv st := by
  intro hc
  rw [h] at hc
  rcases hc with hc | hc <;> simp at hc

lemma connInv_of_connecting (st : HWState)
    (h : st.connectionState = ConnState.connecting) : connInv st := by
  intro hc
  rw [h] at hc
  rcases hc with hc | hc <;> simp at hc

lemma connInv_of_disconnected (st : HWState)
    (h : st.connectionState = ConnState.disconnected) : connInv st := by
  intro hc
  rw [h] at hc
  rcases hc with hc | hc <;> simp at hc

lemma connectLoop_connInv (deviceId : String) (ar : Bool) (oc : Nat → Bool)
    (fm : Nat → String) (now : Nat) :
    ∀ fuel attempt (st : HWState), st.connectionState = ConnState.connecting →
      connInv (connectLoop deviceId ar oc fm now fuel attempt st).state := by
  intro fuel
  induction fuel with
  | zero =>
    intro attempt st hst
    exact connInv_of_connecting _ hst
  | succ fuel ih =>
    intro attempt st hst
    unfold connectLoop
    by_cases h1 : oc attempt
    · rw [if_pos h1]
      intro _
      simp [startDistanceMonitoring, startHealthCheck]
    · rw [if_neg h1]
      by_cases h2 : attempt = MAX_RETRY_ATTEMPTS ∨ ar = false
      · rw [if_pos h2]
        apply connInv_of_fallback
        simp [activateFallbackMode, startFallbackSensors, startDistanceMonitoring]
      · rw [if_neg h2]
        exact ih (attempt + 1) st hst

lemma connectToDevice_connInv (deviceId : String) (ar : Bool) (oc : Nat → Bool)
    (fm : Nat → String) (now : Nat) (st : HWState) :
    connInv (connectToDevice deviceId ar oc fm now st).state := by
  unfold connectToDevice
  exact connectLoop_connInv deviceId ar oc fm now MAX_RETRY_ATTEMPTS 1 _ rfl

lemma reconnectTimerFire_connInv (oc : Nat → Bool) (fm : Nat → String) (now : Nat)
    (st : HWState) (h : connInv st) : connInv (reconnectTimerFire oc fm now st).1 := by
  simp only [reconnectTimerFire]
  rcases hd : ({ st with reconnectTimer := false } : HWState).device with _ | d
  · simp only [hd]
    intro hc
    exact absurd hd (h hc)
  · simp only [hd]
    rcases hr : (connectToDevice d.id true oc fm now
        { st with device := some d, reconnectTimer := false }).result with _ | p
    · simp only [hr]
      apply connInv_of_fallback
      simp [activateFallbackMode, startFallbackSensors, startDistanceMonitoring]
    · simp only [hr]
      exact connectToDevice_connInv d.id true oc fm now _

lemma runOp_connInv (op : Op) (st : HWState) (h : connInv st) : connInv (runOp op st) := by
  cases op with
  | initOp web bt lidar now =>
    simp only [runOp]
    unfold initHW
    by_cases hw : web = true
    · rw [if_pos hw]
      apply connInv_of_fallback
      simp [activateFallbackMode, startFallbackSensors, startDistanceMonitoring]
    · rw [if_neg hw]
      by_cases hb : bt = false
      · rw [if_pos hb]
        apply connInv_of_fallback
        simp [activateFallbackMode, startFallbackSensors, startDistanceMonitoring]
      · rw [if_neg hb]
        intro hc
        exact h hc
  | scanOp w now =>
    simp only [runOp]
    unfold scanForDevice
    by_cases hw : w = true
    · rw [if_pos hw]
      exact connInv_of_connecting _ rfl
    · rw [if_neg hw]
      exact connInv_of_disconnected _ rfl
  | connectOp deviceId ar oc fm now =>
    exact connectToDevice_connInv deviceId ar oc fm now st
  | healthCheckOp now =>
    simp only [runOp]
    by_cases ht : st.healthCheckTimer = true
    · rw [if_pos ht]
      unfold checkConnectionHealth
      by_cases hc : st.connectionState = ConnState.connected
      · rw [if_pos hc]
        by_cases hs : (now : Int) -
            (match st.lastDataTimestamp with
             | none => (now : Int)
             | some t => if t = 0 then (now : Int) else (t : Int)) >
              (HEALTH_CHECK_INTERVAL : Int) * 2
        · rw [if_pos hs]
          intro _
          have hd : st.device ≠ none := h (Or.inl hc)
          simpa [handleConnectionLoss, stopHealthCheck, stopDistanceMonitoring] using hd
        · rw [if_neg hs]
          exact h
      · rw [if_neg hc]
        exact h
    · rw [if_neg ht]
      exact h
  | reconnectFireOp oc fm now =>
    simp only [runOp]
    by_cases ht : st.reconnectTimer = true
    · rw [if_pos ht]
      exact reconnectTimerFire_connInv oc fm now st h
    · rw [if_neg ht]
      exact h
  | fallbackOp reason =>
    apply connInv_of_fallback
    simp [runOp, activateFallbackMode, startFallbackSensors, startDistanceMonitoring]
  | disconnectOp =>
    apply connInv_of_disconnected
    simp [runOp, disconnect, stopHealthCheck, stopDistanceMonitoring]

lemma runOps_connInv (ops : List Op) :
    ∀ st : HWState, connInv st → connInv (runOps ops st) := by
  induction ops with
  | nil => intro st h; exact h
  | cons op ops ih =>
    intro st h
    rw [runOps, List.foldl_cons]
    exact ih _ (runOp_connInv op st h)

/-- Claim C2 counterexample: after a successful connect followed by a
fallback activation, the state is `FallbackActive` with fallback mode on,
yet the device handle is still non-null, refuting both the claimed iff and
the claimed mutual exclusion of fallback mode and a non-null handle. -/
theorem device_fallback_exclusion_counterexample :
    (runOps c2Ops initState).fallbackMode = true ∧
    (runOps c2Ops initState).connectionState = ConnState.fallback ∧
    (runOps c2Ops initState).device ≠ none := by decide

/-- Claim C2 (amended): in every state reachable from the initial state by
controller operations, the device handle is non-null whenever the state is
`Connected` or `Reconnecting`; the converse direction and the exclusion with
fallback mode fail, because neither connect failure, fallback activation nor
reconnection clears the handle. -/
theorem device_nonnull_when_connected (ops : List Op)
    (h : (runOps ops initState).connectionState = ConnState.connected ∨
         (runOps ops initState).connectionState = ConnState.reconnecting) :
    (runOps ops initState).device ≠ none :=
  runOps_connInv ops initState (fun hc => by
    rcases hc with hc | hc <;> simp [initState] at hc) h

/-- Claim C2 witness. -/
theorem device_nonnull_when_connected_witness :
    ((runOps c2WitnessOps initState).connectionState = ConnState.connected ∨
     (runOps c2WitnessOps initState).connectionState = ConnState.reconnecting) ∧
    (runOps c2WitnessOps initState).device ≠ none :=
  ⟨Or.inl (by decide), device_nonnull_when_connected c2WitnessOps (Or.inl (by decide))⟩

lemma reconnectTimerFire_allFail (oc : Nat → Bool) (fm : Nat → String) (now : Nat)
    (st : HWState) (d : Device) (hdev : st.device = some d)
    (h : ∀ k, oc k = false) :
    (reconnectTimerFire oc fm now st).1.connectionState = ConnState.fallback ∧
    (reconnectTimerFire oc fm now st).1.fallbackMode = true := by
  simp only [reconnectTimerFire]
  simp only [hdev]
  have hres := (connectToDevice_allFail d.id oc fm now
    { st with device := some d, reconnectTimer := false } h).2.2.1
  simp only [hres]
  exact ⟨rfl, rfl⟩

/-- Claim C3: while `Connected` with a known device and a truthy (nonzero,
as every `Date.now()` reading is) last-sample timestamp, a health check at a
time whose distance from that timestamp exceeds twice the 5-second check
period performs the single Connected to Reconnecting transition, stops both the
sampling and heartbeat timers, schedules exactly one reconnect attempt with
the fixed 3-second delay, emits the state-change and connection-lost events;
a further health check on the resulting state is a no-op (so a second
transition cannot fire), and if the scheduled reconnect attempt fails on
every try, fallback mode is activated. -/
theorem heartbeat_silence_single_reconnect (st : HWState) (now t : Nat) (d : Device)
    (hc : st.connectionState = ConnState.connected)
    (ht : st.lastDataTimestamp = some t)
    (ht0 : t ≠ 0)
    (hs : (now : Int) - (t : Int) > (HEALTH_CHECK_INTERVAL : Int) * 2)
    (hd : st.device = some d) :
    (checkConnectionHealth now st).state.connectionState = ConnState.reconnecting ∧
    (checkConnectionHealth now st).state.healthCheckTimer = false ∧
    (checkConnectionHealth now st).state.monitoringInterval = false ∧
    (checkConnectionHealth now st).state.reconnectTimer = true ∧
    (checkConnectionHealth now st).state.device = some d ∧
    (checkConnectionHealth now st).reconnectDelay = some RECONNECT_DELAY ∧
    RECONNECT_DELAY = 3000 ∧
    HEALTH_CHECK_INTERVAL = 5000 ∧
    (checkConnectionHealth now st).events =
      [Event.stateChange ConnState.reconnecting, Event.connectionLost] ∧
    (∀ now2, checkConnectionHealth now2 (checkConnectionHealth now st).state =
      { state := (checkConnectionHealth now st).state, events := [],
        reconnectDelay := none }) ∧
    (∀ (oc : Nat → Bool) (fm : Nat → String) (now3 : Nat), (∀ k, oc k = false) →
      (reconnectTimerFire oc fm now3
        (checkConnectionHealth now st).state).1.connectionState = ConnState.fallback ∧
      (reconnectTimerFire oc fm now3
        (checkConnectionHealth now st).state).1.fallbackMode = true) := by
  have hstep : checkConnectionHealth now st =
      { state := (handleConnectionLoss st).1, events := (handleConnectionLoss st).2,
        reconnectDelay := some RECONNECT_DELAY } := by
    unfold checkConnectionHealth
    rw [if_pos hc]
    simp only [ht]
    rw [if_neg ht0, if_pos hs]
  have hdev2 : (checkConnectionHealth now st).state.device = some d := by
    rw [hstep]
    simpa [handleConnectionLoss, stopHealthCheck, stopDistanceMonitoring] using hd
  refine ⟨by rw [hstep]; rfl, by rw [hstep]; rfl, by rw [hstep]; rfl, by rw [hstep]; rfl,
    hdev2, by rw [hstep], rfl, rfl, by rw [hstep]; rfl, ?_, ?_⟩
  · intro now2
    rw [hstep]
    unfold checkConnectionHealth
    rw [if_neg (by simp [handleConnectionLoss, stopHealthCheck, stopDistanceMonitoring])]
  · intro oc fm now3 hfail
    exact reconnectTimerFire_allFail oc fm now3 _ d hdev2 hfail

/-- Claim C3 witness. -/
theorem heartbeat_silence_witness :
    (c3State.connectionState = ConnState.connected ∧
     c3State.lastDataTimestamp = some 1000 ∧
     (1000 : Nat) ≠ 0 ∧
     ((20000 : Nat) : Int) - ((1000 : Nat) : Int) > (HEALTH_CHECK_INTERVAL : Int) * 2 ∧
     c3State.device = some { id := "X", name := "Drishtika" }) ∧
    (checkConnectionHealth 20000 c3State).state.connectionState = ConnState.reconnecting ∧
    (checkConnectionHealth 20000 c3State).reconnectDelay = some RECONNECT_DELAY :=
  ⟨⟨rfl, rfl, by norm_num, by norm_num [HEALTH_CHECK_INTERVAL], rfl⟩,
   (heartbeat_silence_single_reconnect c3State 20000 1000
     { id := "X", name := "Drishtika" } rfl rfl (by norm_num)
     (by norm_num [HEALTH_CHECK_INTERVAL]) rfl).1,
   (heartbeat_silence_single_reconnect c3State 20000 1000
     { id := "X", name := "Drishtika" } rfl rfl (by norm_num)
     (by norm_num [HEALTH_CHECK_INTERVAL]) rfl).2.2.2.2.2.1⟩

end Drishya
